import Mathlib

/-
Verification of the progressive-estimate generation core of the
CCheck-dash synthetic data generator
(src/data/generators/generate_data_v2.py), as a shallow embedding in
Lean 4.  Money and percentages are modelled as rationals; Python's
round(x, 2) is modelled by round2 below; dates are modelled as rational
day counts (the generator only ever adds whole-day timedeltas).  Each
random draw of the source (random.uniform, random.randint, ...) becomes
an explicit input, constrained to the support of the distribution it was
drawn from.
-/

namespace CCheckDash

/-- Rounding to two decimal places: model of Python's round(x, 2).
Python rounds half to even at exact decimal ties; `round` here rounds half
up.  Every property proved below uses only monotonicity and the 1/200
error bound of rounding, which both conventions share. -/
def round2 (x : ℚ) : ℚ := (round (100 * x) : ℤ) / 100

lemma round_rat_mono {x y : ℚ} (h : x ≤ y) : round x ≤ round y := by
  rw [round_eq, round_eq]
  exact Int.floor_le_floor (by linarith)

lemma round2_mono {x y : ℚ} (h : x ≤ y) : round2 x ≤ round2 y := by
  unfold round2
  have h1 : round (100 * x) ≤ round (100 * y) := round_rat_mono (by linarith)
  have h2 : ((round (100 * x) : ℤ) : ℚ) ≤ ((round (100 * y) : ℤ) : ℚ) := by
    exact_mod_cast h1
  linarith

lemma round2_intCast (n : ℤ) : round2 (n : ℚ) = n := by
  unfold round2
  have : (100 : ℚ) * (n : ℚ) = ((100 * n : ℤ) : ℚ) := by push_cast; ring
  rw [this, round_intCast]
  push_cast
  ring

lemma abs_round2_sub_le (x : ℚ) : |round2 x - x| ≤ 1 / 200 := by
  unfold round2
  have h : |100 * x - round (100 * x)| ≤ 1 / 2 := abs_sub_round (100 * x)
  rw [abs_sub_comm] at h
  have : |(round (100 * x) : ℚ) / 100 - x| = |(round (100 * x) : ℚ) - 100 * x| / 100 := by
    rw [← abs_of_pos (show (0 : ℚ) < 100 by norm_num), ← abs_div]
    congr 1
    field_simp
  rw [this]
  linarith

lemma round2_nonneg {x : ℚ} (h : 0 ≤ x) : 0 ≤ round2 x := by
  have := round2_mono h
  rwa [show round2 0 = 0 from round2_intCast 0] at this

/-- Static AACE class record, one entry of the AACE_CLASSES dict
(generate_data_v2.py lines 44-90). -/
structure ClassInfo where
  name : String
  confidence_low : ℚ
  confidence_high : ℚ
  typical_contingency : ℚ
  engineering_completion : ℚ
  preparation_effort : String
  end_use : String
deriving DecidableEq, Repr

/-- AACE_CLASSES dict (lines 44-90), as an association list in source
order. -/
def AACE_CLASSES : List (String × ClassInfo) :=
  [("class_5",
    { name := "Class 5 - Conceptual", confidence_low := -50, confidence_high := 100,
      typical_contingency := 20, engineering_completion := 2,
      preparation_effort := "minimal", end_use := "Screening/Feasibility" }),
   ("class_4",
    { name := "Class 4 - Study/Feasibility", confidence_low := -30, confidence_high := 50,
      typical_contingency := 15, engineering_completion := 10,
      preparation_effort := "low", end_use := "Concept Study/Feasibility" }),
   ("class_3",
    { name := "Class 3 - Budget/Authorization", confidence_low := -20, confidence_high := 30,
      typical_contingency := 12, engineering_completion := 30,
      preparation_effort := "medium", end_use := "Budget/Authorization/Control" }),
   ("class_2",
    { name := "Class 2 - Control/Bid", confidence_low := -15, confidence_high := 20,
      typical_contingency := 8, engineering_completion := 65,
      preparation_effort := "high", end_use := "Control/Bid/Tender" }),
   ("class_1",
    { name := "Class 1 - Check/Bid", confidence_low := -10, confidence_high := 15,
      typical_contingency := 5, engineering_completion := 95,
      preparation_effort := "very_high", end_use := "Check Estimate/Bid/Control" })]

/-- Total model of the Python dict access AACE_CLASSES[s].  The fallback
branch models the KeyError case; it is unreachable for every key this
program ever uses (keys always come from class_progression or from
list(AACE_CLASSES.keys())). -/
def lookupClass (s : String) : ClassInfo :=
  match AACE_CLASSES.lookup s with
  | some ci => ci
  | none =>
    { name := "KeyError", confidence_low := 0, confidence_high := 0,
      typical_contingency := 0, engineering_completion := 0,
      preparation_effort := "", end_use := "" }

/-- REGIONAL_COST_MULTIPLIERS dict (lines 96-124), in source order. -/
def REGIONAL_COST_MULTIPLIERS : List (String × ℚ) :=
  [("NY", 1.35), ("CA", 1.30), ("MA", 1.25), ("WA", 1.20), ("HI", 2.00),
   ("IL", 1.15), ("CO", 1.12), ("OR", 1.10), ("PA", 1.08), ("MN", 1.50),
   ("TX", 1.00), ("FL", 1.00), ("NC", 0.98), ("GA", 0.97), ("AZ", 0.96),
   ("TN", 0.92), ("OH", 0.90), ("IN", 0.88), ("NV", 0.95), ("MI", 0.93)]

/-- get_regional_multiplier (lines 191-193): dict .get with default 1.0. -/
def get_regional_multiplier (state : String) : ℚ :=
  (REGIONAL_COST_MULTIPLIERS.lookup state).getD 1

/-- MAJOR_CITIES list (lines 173-183). -/
def MAJOR_CITIES : List (String × String) :=
  [("New York", "NY"), ("Los Angeles", "CA"), ("Chicago", "IL"),
   ("Houston", "TX"), ("Phoenix", "AZ"), ("Philadelphia", "PA"),
   ("San Antonio", "TX"), ("San Diego", "CA"), ("Dallas", "TX"),
   ("Austin", "TX"), ("Jacksonville", "FL"), ("San Jose", "CA"),
   ("Fort Worth", "TX"), ("Columbus", "OH"), ("Charlotte", "NC"),
   ("Indianapolis", "IN"), ("Seattle", "WA"), ("Denver", "CO"),
   ("Boston", "MA"), ("Portland", "OR"), ("Atlanta", "GA"),
   ("Miami", "FL"), ("Las Vegas", "NV"), ("Detroit", "MI"),
   ("Nashville", "TN"), ("Minneapolis", "MN"), ("Tampa", "FL")]

/-- ESTIMATION_METHODS list (line 171). -/
def ESTIMATION_METHODS : List String :=
  ["parametric", "analogical", "engineering", "detailed_takeoff"]

/-- class_progression list from generate_progressive_estimates (line 728). -/
def class_progression : List String :=
  ["class_5", "class_4", "class_3", "class_2", "class_1"]

/-- class_index at 0-based step seq (line 737):
min(seq, len(class_progression) - 1). -/
def class_index (seq : ℕ) : ℕ := min seq (class_progression.length - 1)

lemma class_index_lt (seq : ℕ) : class_index seq < class_progression.length := by
  simp only [class_index, class_progression, List.length]
  omega

/-- aace_class at step seq (line 738): class_progression[class_index]. -/
def step_class (seq : ℕ) : String :=
  class_progression.get ⟨class_index seq, class_index_lt seq⟩

/-- Random draws consumed by one loop iteration of
generate_progressive_estimates (lines 735-789), each constrained by
ValidProgDraw to the support of the distribution it came from. -/
structure ProgDraw where
  variance : ℚ
  dateStep : ℕ
  engJitter : ℤ
  contJitter : ℚ
  fLabor : ℚ
  fMaterials : ℚ
  fEquipment : ℚ
  fSubcontractor : ℚ
  fOverhead : ℚ
  fProfit : ℚ
  duration : ℕ
deriving DecidableEq, Repr

/-- Support of the random draws of one progressive-mode loop iteration:
variance from random.uniform(variance_low, variance_high) of the step's
class, dateStep from random.randint(7, 21), engJitter from
random.randint(-5, 10), contJitter from random.uniform(-2, 2), the six
cost fractions from their respective random.uniform calls (lines
746-766), duration from random.randint(30, 720). -/
def ValidProgDraw (seq : ℕ) (d : ProgDraw) : Prop :=
  (lookupClass (step_class seq)).confidence_low / 100 ≤ d.variance ∧
  d.variance ≤ (lookupClass (step_class seq)).confidence_high / 100 ∧
  7 ≤ d.dateStep ∧ d.dateStep ≤ 21 ∧
  -5 ≤ d.engJitter ∧ d.engJitter ≤ 10 ∧
  -2 ≤ d.contJitter ∧ d.contJitter ≤ 2 ∧
  0.3 ≤ d.fLabor ∧ d.fLabor ≤ 0.45 ∧
  0.25 ≤ d.fMaterials ∧ d.fMaterials ≤ 0.40 ∧
  0.05 ≤ d.fEquipment ∧ d.fEquipment ≤ 0.15 ∧
  0.10 ≤ d.fSubcontractor ∧ d.fSubcontractor ≤ 0.25 ∧
  0.08 ≤ d.fOverhead ∧ d.fOverhead ≤ 0.15 ∧
  0.05 ≤ d.fProfit ∧ d.fProfit ≤ 0.12 ∧
  30 ≤ d.duration ∧ d.duration ≤ 720

instance (seq : ℕ) (d : ProgDraw) : Decidable (ValidProgDraw seq d) := by
  unfold ValidProgDraw
  exact inferInstance

/-- Fields of one row of the estimates table that the generator fills in
(both modes fill the same columns, lines 768-789 and 861-882).
submitted_date is in days, relative to the same epoch as posted_date. -/
structure Estimate where
  estimate_sequence : ℕ
  aace_class : String
  engineering_completion_percent : ℚ
  estimated_total_cost : ℚ
  confidence_interval_low : ℚ
  confidence_interval_high : ℚ
  labor_cost : ℚ
  materials_cost : ℚ
  equipment_cost : ℚ
  subcontractor_cost : ℚ
  overhead_cost : ℚ
  profit_margin : ℚ
  contingency_percent : ℚ
  estimated_duration_days : ℕ
  estimation_method : String
  status : String
  submitted_date : ℚ
deriving DecidableEq, Repr

/-- Loop body of generate_progressive_estimates (lines 735-789) at
0-based step seq out of num_estimates, with base_cost =
(estimated_budget_min + estimated_budget_max) / 2 of the project and
posted_date the project's posted date in days. -/
def mkProgEstimate (posted_date : ℚ) (base_cost : ℚ) (num_estimates seq : ℕ)
    (d : ProgDraw) : Estimate :=
  let aace_class := step_class seq
  let class_info := lookupClass aace_class
  let variance_low := class_info.confidence_low / 100
  let variance_high := class_info.confidence_high / 100
  let estimated_cost := base_cost * (1 + d.variance)
  let days_offset := (seq : ℚ) * (d.dateStep : ℚ)
  let submitted_date := posted_date + days_offset
  let engineering_pct := max 0 (min 100 (class_info.engineering_completion + (d.engJitter : ℚ)))
  let contingency_pct := class_info.typical_contingency + d.contJitter
  { estimate_sequence := seq + 1,
    aace_class := aace_class,
    engineering_completion_percent := engineering_pct,
    estimated_total_cost := round2 estimated_cost,
    confidence_interval_low := round2 (base_cost * (1 + variance_low)),
    confidence_interval_high := round2 (base_cost * (1 + variance_high)),
    labor_cost := round2 (estimated_cost * d.fLabor),
    materials_cost := round2 (estimated_cost * d.fMaterials),
    equipment_cost := round2 (estimated_cost * d.fEquipment),
    subcontractor_cost := round2 (estimated_cost * d.fSubcontractor),
    overhead_cost := round2 (estimated_cost * d.fOverhead),
    profit_margin := round2 (estimated_cost * d.fProfit),
    contingency_percent := round2 contingency_pct,
    estimated_duration_days := d.duration,
    estimation_method :=
      if h : class_index seq < ESTIMATION_METHODS.length then
        ESTIMATION_METHODS.get ⟨class_index seq, h⟩
      else "detailed_takeoff",
    status := if seq = num_estimates - 1 then "accepted" else "superseded",
    submitted_date := submitted_date }

/-- generate_progressive_estimates (lines 716-811): one estimator, a
sequence of num_estimates refinements (num_estimates is drawn by
random.randint(2, MAX_PROGRESSIVE_ESTIMATES), so 2 ≤ num_estimates ≤ 5
on every real call), walking the AACE class progression.  draws gives
the random values consumed at each step. -/
def generate_progressive_estimates (posted_date : ℚ)
    (budget_min budget_max : ℚ) (num_estimates : ℕ)
    (draws : ℕ → ProgDraw) : List Estimate :=
  let base_cost := (budget_min + budget_max) / 2
  (List.range num_estimates).map
    (fun seq => mkProgEstimate posted_date base_cost num_estimates seq (draws seq))

/-- Budget computation of generate_projects (lines 653-659): base budget
drawn from np.random.lognormal(13, 1.2), multiplied by the regional
multiplier, then an asymmetric 0.8/1.2 spread, rounded to cents. -/
def project_budget (base_budget : ℚ) (state : String) : ℚ × ℚ :=
  let regional_multiplier := get_regional_multiplier state
  let adjusted_budget := base_budget * regional_multiplier
  (round2 (adjusted_budget * 0.8), round2 (adjusted_budget * 1.2))

/-- Keys of AACE_CLASSES in order: list(AACE_CLASSES.keys()) (line 836). -/
def aace_keys : List String := AACE_CLASSES.map Prod.fst

/-- Random draws consumed for one single-bid estimate in
generate_estimates (lines 834-882).  classIndex models
random.choice(list(AACE_CLASSES.keys())) as an index below 5;
acceptRoll models random.random(); dateOffset models
random.randint(1, 14). -/
structure BidDraw where
  classIndex : ℕ
  variance : ℚ
  engJitter : ℤ
  contJitter : ℚ
  fLabor : ℚ
  fMaterials : ℚ
  fEquipment : ℚ
  fSubcontractor : ℚ
  fOverhead : ℚ
  fProfit : ℚ
  duration : ℕ
  methodIndex : ℕ
  acceptRoll : ℚ
  dateOffset : ℕ
deriving DecidableEq, Repr

lemma aace_keys_pos : 0 < aace_keys.length := by decide

/-- Class picked by random.choice(list(AACE_CLASSES.keys())) (line 836),
modelled as indexing the key list by a draw below its length. -/
def bid_class (k : ℕ) : String :=
  aace_keys.get ⟨k % aace_keys.length, Nat.mod_lt _ aace_keys_pos⟩

/-- Single-bid estimate of generate_estimates (lines 834-882): a random
AACE class, sequence number 1, status accepted iff random.random() is
above 0.7, submitted 1-14 days after posting. -/
def mkSingleEstimate (posted_date : ℚ) (budget_min budget_max : ℚ)
    (d : BidDraw) : Estimate :=
  let aace_class := bid_class d.classIndex
  let class_info := lookupClass aace_class
  let base_cost := (budget_min + budget_max) / 2
  let variance_low := class_info.confidence_low / 100
  let variance_high := class_info.confidence_high / 100
  let estimated_cost := base_cost * (1 + d.variance)
  let engineering_pct := max 0 (min 100 (class_info.engineering_completion + (d.engJitter : ℚ)))
  let contingency_pct := class_info.typical_contingency + d.contJitter
  { estimate_sequence := 1,
    aace_class := aace_class,
    engineering_completion_percent := engineering_pct,
    estimated_total_cost := round2 estimated_cost,
    confidence_interval_low := round2 (base_cost * (1 + variance_low)),
    confidence_interval_high := round2 (base_cost * (1 + variance_high)),
    labor_cost := round2 (estimated_cost * d.fLabor),
    materials_cost := round2 (estimated_cost * d.fMaterials),
    equipment_cost := round2 (estimated_cost * d.fEquipment),
    subcontractor_cost := round2 (estimated_cost * d.fSubcontractor),
    overhead_cost := round2 (estimated_cost * d.fOverhead),
    profit_margin := round2 (estimated_cost * d.fProfit),
    contingency_percent := round2 contingency_pct,
    estimated_duration_days := d.duration,
    estimation_method := ESTIMATION_METHODS.getD (d.methodIndex % ESTIMATION_METHODS.length) "parametric",
    status := if d.acceptRoll > 0.7 then "accepted" else "pending",
    submitted_date := posted_date + (d.dateOffset : ℚ) }

/-- Support of the random draws of one single-bid estimate (lines
841-859): variance uniform in the chosen class's confidence band, the
jitters and cost fractions as in progressive mode, acceptRoll in [0, 1),
dateOffset from random.randint(1, 14). -/
def ValidBidDraw (d : BidDraw) : Prop :=
  (lookupClass (bid_class d.classIndex)).confidence_low / 100 ≤ d.variance ∧
  d.variance ≤ (lookupClass (bid_class d.classIndex)).confidence_high / 100 ∧
  -5 ≤ d.engJitter ∧ d.engJitter ≤ 10 ∧
  -2 ≤ d.contJitter ∧ d.contJitter ≤ 2 ∧
  0.3 ≤ d.fLabor ∧ d.fLabor ≤ 0.45 ∧
  0.25 ≤ d.fMaterials ∧ d.fMaterials ≤ 0.40 ∧
  0.05 ≤ d.fEquipment ∧ d.fEquipment ≤ 0.15 ∧
  0.10 ≤ d.fSubcontractor ∧ d.fSubcontractor ≤ 0.25 ∧
  0.08 ≤ d.fOverhead ∧ d.fOverhead ≤ 0.15 ∧
  0.05 ≤ d.fProfit ∧ d.fProfit ≤ 0.12 ∧
  0 ≤ d.acceptRoll ∧ d.acceptRoll < 1 ∧
  1 ≤ d.dateOffset ∧ d.dateOffset ≤ 14

instance (d : BidDraw) : Decidable (ValidBidDraw d) := by
  unfold ValidBidDraw
  exact inferInstance

/-- Width of the stored confidence interval of an estimate. -/
def ci_width (e : Estimate) : ℚ :=
  e.confidence_interval_high - e.confidence_interval_low

/-- Name of the AACE class with the given number, as stored in the
aace_class column. -/
def class_name (k : ℕ) : String := "class_" ++ toString k

lemma lookupClass_c5 : lookupClass "class_5" =
    ⟨"Class 5 - Conceptual", -50, 100, 20, 2, "minimal", "Screening/Feasibility"⟩ := rfl

lemma lookupClass_c4 : lookupClass "class_4" =
    ⟨"Class 4 - Study/Feasibility", -30, 50, 15, 10, "low", "Concept Study/Feasibility"⟩ := rfl

lemma lookupClass_c3 : lookupClass "class_3" =
    ⟨"Class 3 - Budget/Authorization", -20, 30, 12, 30, "medium", "Budget/Authorization/Control"⟩ := rfl

lemma lookupClass_c2 : lookupClass "class_2" =
    ⟨"Class 2 - Control/Bid", -15, 20, 8, 65, "high", "Control/Bid/Tender"⟩ := rfl

lemma lookupClass_c1 : lookupClass "class_1" =
    ⟨"Class 1 - Check/Bid", -10, 15, 5, 95, "very_high", "Check Estimate/Bid/Control"⟩ := rfl

lemma step_class_cases (s : ℕ) :
    step_class s = "class_5" ∨ step_class s = "class_4" ∨ step_class s = "class_3" ∨
    step_class s = "class_2" ∨ step_class s = "class_1" := by
  have h : class_index s = 0 ∨ class_index s = 1 ∨ class_index s = 2 ∨
      class_index s = 3 ∨ class_index s = 4 := by
    simp only [class_index, class_progression, List.length]
    omega
  unfold step_class
  rcases h with h | h | h | h | h <;> simp only [h]
  · exact Or.inl rfl
  · exact Or.inr (Or.inl rfl)
  · exact Or.inr (Or.inr (Or.inl rfl))
  · exact Or.inr (Or.inr (Or.inr (Or.inl rfl)))
  · exact Or.inr (Or.inr (Or.inr (Or.inr rfl)))

/-- Bounds shared by all five classes of the static table, at whatever
class a progressive step lands on. -/
lemma step_info_bounds (s : ℕ) :
    -50 ≤ (lookupClass (step_class s)).confidence_low ∧
    (lookupClass (step_class s)).confidence_low ≤ -10 ∧
    15 ≤ (lookupClass (step_class s)).confidence_high ∧
    5 ≤ (lookupClass (step_class s)).typical_contingency := by
  rcases step_class_cases s with h | h | h | h | h <;>
    rw [h] <;>
    norm_num [lookupClass_c5, lookupClass_c4, lookupClass_c3, lookupClass_c2, lookupClass_c1]

lemma gen_prog_getElem (p bmin bmax : ℚ) (n : ℕ) (draws : ℕ → ProgDraw)
    (i : ℕ) (h : i < n) :
    (generate_progressive_estimates p bmin bmax n draws)[i]? =
      some (mkProgEstimate p ((bmin + bmax) / 2) n i (draws i)) := by
  simp [generate_progressive_estimates, List.getElem?_map, List.getElem?_range, h]

lemma gen_prog_length (p bmin bmax : ℚ) (n : ℕ) (draws : ℕ → ProgDraw) :
    (generate_progressive_estimates p bmin bmax n draws).length = n := by
  simp [generate_progressive_estimates]

lemma get_regional_multiplier_pos (st : String) : 0 < get_regional_multiplier st := by
  simp only [get_regional_multiplier, REGIONAL_COST_MULTIPLIERS, List.lookup]
  repeat' split
  all_goals norm_num [Option.getD]

lemma step_class_0 : step_class 0 = "class_5" := rfl

lemma step_class_1 : step_class 1 = "class_4" := rfl

lemma step_class_2 : step_class 2 = "class_3" := rfl

lemma step_class_3 : step_class 3 = "class_2" := rfl

lemma step_class_4 : step_class 4 = "class_1" := rfl

lemma mkProg_ci_low (p b : ℚ) (n s : ℕ) (d : ProgDraw) :
    (mkProgEstimate p b n s d).confidence_interval_low =
      round2 (b * (1 + (lookupClass (step_class s)).confidence_low / 100)) := rfl

lemma mkProg_ci_high (p b : ℚ) (n s : ℕ) (d : ProgDraw) :
    (mkProgEstimate p b n s d).confidence_interval_high =
      round2 (b * (1 + (lookupClass (step_class s)).confidence_high / 100)) := rfl

lemma round2_eq_int (x : ℚ) (n : ℤ) (h : x = (n : ℚ)) : round2 x = (n : ℚ) := by
  rw [h, round2_intCast]

/-- Core monotonicity step behind the narrowing-funnel property: a band
with a higher low offset and a lower high offset yields a confidence
interval that is no wider, after rounding each bound to cents. -/
lemma width_step (b : ℚ) (hb : 0 ≤ b) {vl vh vl2 vh2 : ℚ}
    (h1 : vl ≤ vl2) (h2 : vh2 ≤ vh) :
    round2 (b * (1 + vh2)) - round2 (b * (1 + vl2)) ≤
      round2 (b * (1 + vh)) - round2 (b * (1 + vl)) := by
  have l1 : round2 (b * (1 + vl)) ≤ round2 (b * (1 + vl2)) := round2_mono (by nlinarith)
  have l2 : round2 (b * (1 + vh2)) ≤ round2 (b * (1 + vh)) := round2_mono (by nlinarith)
  linarith

lemma bid_class_cases (k : ℕ) :
    bid_class k = "class_5" ∨ bid_class k = "class_4" ∨ bid_class k = "class_3" ∨
    bid_class k = "class_2" ∨ bid_class k = "class_1" := by
  have h5 : aace_keys.length = 5 := rfl
  have h : k % aace_keys.length = 0 ∨ k % aace_keys.length = 1 ∨
      k % aace_keys.length = 2 ∨ k % aace_keys.length = 3 ∨ k % aace_keys.length = 4 := by
    rw [h5]; omega
  unfold bid_class
  rcases h with h | h | h | h | h <;> simp only [h]
  · exact Or.inl rfl
  · exact Or.inr (Or.inl rfl)
  · exact Or.inr (Or.inr (Or.inl rfl))
  · exact Or.inr (Or.inr (Or.inr (Or.inl rfl)))
  · exact Or.inr (Or.inr (Or.inr (Or.inr rfl)))

/-- Bounds shared by all five classes, at whatever class a single bid
lands on. -/
lemma bid_info_bounds (k : ℕ) :
    -50 ≤ (lookupClass (bid_class k)).confidence_low ∧
    (lookupClass (bid_class k)).confidence_low ≤ -10 ∧
    15 ≤ (lookupClass (bid_class k)).confidence_high ∧
    5 ≤ (lookupClass (bid_class k)).typical_contingency := by
  rcases bid_class_cases k with h | h | h | h | h <;>
    rw [h] <;>
    norm_num [lookupClass_c5, lookupClass_c4, lookupClass_c3, lookupClass_c2, lookupClass_c1]

/-- Concrete draw inside the support of every per-step distribution,
used by the witnesses below: variance 0 works for every class band. -/
def sampleDraw : ProgDraw :=
  ⟨0, 7, 0, 0, 0.3, 0.25, 0.05, 0.10, 0.08, 0.05, 30⟩

lemma sampleDraw_valid (s : ℕ) : ValidProgDraw s sampleDraw := by
  obtain ⟨h1, h2, h3, -⟩ := step_info_bounds s
  refine ⟨by simp only [sampleDraw]; linarith, by simp only [sampleDraw]; linarith,
    ?_, ?_, ?_, ?_, ?_, ?_, ?_, ?_, ?_, ?_, ?_, ?_, ?_, ?_, ?_, ?_, ?_, ?_, ?_, ?_⟩ <;>
    norm_num [sampleDraw]

/-- Concrete single-bid draw inside the support of every distribution. -/
def sampleBid : BidDraw :=
  ⟨0, 0, 0, 0, 0.3, 0.25, 0.05, 0.10, 0.08, 0.05, 30, 0, 0, 1⟩

lemma sampleBid_valid : ValidBidDraw sampleBid := by
  obtain ⟨h1, h2, h3, -⟩ := bid_info_bounds 0
  refine ⟨by simp only [sampleBid]; linarith, by simp only [sampleBid]; linarith,
    ?_, ?_, ?_, ?_, ?_, ?_, ?_, ?_, ?_, ?_, ?_, ?_, ?_, ?_, ?_, ?_, ?_, ?_, ?_, ?_⟩ <;>
    norm_num [sampleBid]

/-- C8: the static AACE class table has confidence bands nested with
increasing maturity (class 1 band inside class 2 inside ... inside
class 5) and strictly increasing nominal engineering completion from
class 5 to class 1; looking up an unknown region code returns the
default multiplier 1.0 without error, and every multiplier in the
regional table (and hence every multiplier the lookup can return) is
positive. -/
theorem static_tables_invariants :
    ((lookupClass "class_2").confidence_low ≤ (lookupClass "class_1").confidence_low ∧
     (lookupClass "class_1").confidence_high ≤ (lookupClass "class_2").confidence_high ∧
     (lookupClass "class_3").confidence_low ≤ (lookupClass "class_2").confidence_low ∧
     (lookupClass "class_2").confidence_high ≤ (lookupClass "class_3").confidence_high ∧
     (lookupClass "class_4").confidence_low ≤ (lookupClass "class_3").confidence_low ∧
     (lookupClass "class_3").confidence_high ≤ (lookupClass "class_4").confidence_high ∧
     (lookupClass "class_5").confidence_low ≤ (lookupClass "class_4").confidence_low ∧
     (lookupClass "class_4").confidence_high ≤ (lookupClass "class_5").confidence_high) ∧
    ((lookupClass "class_5").engineering_completion < (lookupClass "class_4").engineering_completion ∧
     (lookupClass "class_4").engineering_completion < (lookupClass "class_3").engineering_completion ∧
     (lookupClass "class_3").engineering_completion < (lookupClass "class_2").engineering_completion ∧
     (lookupClass "class_2").engineering_completion < (lookupClass "class_1").engineering_completion) ∧
    get_regional_multiplier "ZZ" = 1 ∧
    (∀ pr ∈ REGIONAL_COST_MULTIPLIERS, 0 < pr.2) ∧
    (∀ st : String, 0 < get_regional_multiplier st) ∧
    (∀ st : String, REGIONAL_COST_MULTIPLIERS.lookup st = none →
      get_regional_multiplier st = 1) := by
  refine ⟨?_, ?_, rfl, ?_, get_regional_multiplier_pos, ?_⟩
  · norm_num [lookupClass_c5, lookupClass_c4, lookupClass_c3, lookupClass_c2, lookupClass_c1]
  · norm_num [lookupClass_c5, lookupClass_c4, lookupClass_c3, lookupClass_c2, lookupClass_c1]
  · intro pr hpr
    fin_cases hpr <;> norm_num
  · intro st h
    simp [get_regional_multiplier, h]

theorem static_tables_invariants_witness :
    REGIONAL_COST_MULTIPLIERS.lookup "ZZ" = none ∧ get_regional_multiplier "ZZ" = 1 :=
  ⟨rfl, static_tables_invariants.2.2.2.2.2 "ZZ" rfl⟩

/-- C7: a project's budget bounds are the region-adjusted base times 0.8
and 1.2 (rounded to cents), the midpoint of the stored bounds recovers
the adjusted base within half a cent, dividing the midpoint by the
multiplier recovers the unadjusted log-normal draw within the rounding
tolerance, and concretely a 1,000,000 base in NY (multiplier 1.35)
yields budget_min 1,080,000 and budget_max 1,620,000. -/
theorem regional_budget_roundtrip (b : ℚ) (st : String) (hb : 0 < b) :
    project_budget b st =
      (round2 (0.8 * (b * get_regional_multiplier st)),
       round2 (1.2 * (b * get_regional_multiplier st))) ∧
    |((project_budget b st).1 + (project_budget b st).2) / 2 - b * get_regional_multiplier st|
      ≤ 1 / 200 ∧
    |((project_budget b st).1 + (project_budget b st).2) / 2 / get_regional_multiplier st - b|
      ≤ 1 / (200 * get_regional_multiplier st) ∧
    project_budget 1000000 "NY" = (1080000, 1620000) := by
  have hm : 0 < get_regional_multiplier st := get_regional_multiplier_pos st
  set m := get_regional_multiplier st with hmdef
  have h08 : b * m * 0.8 = 0.8 * (b * m) := by ring
  have h12 : b * m * 1.2 = 1.2 * (b * m) := by ring
  have hpb : project_budget b st = (round2 (0.8 * (b * m)), round2 (1.2 * (b * m))) := by
    simp only [project_budget, ← hmdef, h08, h12]
  have e1 := abs_round2_sub_le (0.8 * (b * m))
  have e2 := abs_round2_sub_le (1.2 * (b * m))
  rw [abs_le] at e1 e2
  have hmid : |((project_budget b st).1 + (project_budget b st).2) / 2 - b * m| ≤ 1 / 200 := by
    rw [hpb]
    simp only
    rw [abs_le]
    constructor <;> nlinarith [e1.1, e1.2, e2.1, e2.2]
  refine ⟨hpb, hmid, ?_, ?_⟩
  · have key : ((project_budget b st).1 + (project_budget b st).2) / 2 / m - b =
        (((project_budget b st).1 + (project_budget b st).2) / 2 - b * m) / m := by
      field_simp
      ring
    rw [key, abs_div, abs_of_pos hm]
    rw [show (1 : ℚ) / (200 * m) = (1 / 200) / m by field_simp]
    gcongr
  · have hNY : get_regional_multiplier "NY" = 1.35 := rfl
    have h1 : (1000000 : ℚ) * 1.35 * 0.8 = ((1080000 : ℤ) : ℚ) := by norm_num
    have h2 : (1000000 : ℚ) * 1.35 * 1.2 = ((1620000 : ℤ) : ℚ) := by norm_num
    simp only [project_budget, hNY, h1, h2, round2_intCast]
    norm_num

theorem regional_budget_roundtrip_witness :
    (0 : ℚ) < 1000000 ∧ project_budget 1000000 "NY" = (1080000, 1620000) :=
  ⟨by norm_num, (regional_budget_roundtrip 1000000 "NY" (by norm_num)).2.2.2⟩

/-- C4: in every progressive sequence of length at most 5, the AACE
class at 0-indexed step i is class (5 - i); in particular length 3 gives
classes [class_5, class_4, class_3] in that order and length 5 gives
[class_5, class_4, class_3, class_2, class_1], so maturity advances one
class per step and never regresses toward class 5. -/
theorem class_progression_formula (p bmin bmax : ℚ) (n : ℕ) (draws : ℕ → ProgDraw)
    (hn : n ≤ 5) :
    (∀ (i : ℕ) (e : Estimate),
        (generate_progressive_estimates p bmin bmax n draws)[i]? = some e →
        e.aace_class = class_name (5 - i)) ∧
    (generate_progressive_estimates p bmin bmax 3 draws).map Estimate.aace_class =
      ["class_5", "class_4", "class_3"] ∧
    (generate_progressive_estimates p bmin bmax 5 draws).map Estimate.aace_class =
      ["class_5", "class_4", "class_3", "class_2", "class_1"] := by
  refine ⟨?_, rfl, rfl⟩
  intro i e h
  obtain ⟨hi, -⟩ := List.getElem?_eq_some.mp h
  rw [gen_prog_length] at hi
  rw [gen_prog_getElem _ _ _ _ _ i hi] at h
  cases Option.some.inj h
  have hi4 : i < 5 := lt_of_lt_of_le hi hn
  show step_class i = class_name (5 - i)
  interval_cases i <;> rfl

theorem class_progression_formula_witness :
    (3 : ℕ) ≤ 5 ∧
    (generate_progressive_estimates 0 1000000 1000000 3 (fun _ => sampleDraw)).map
      Estimate.aace_class = ["class_5", "class_4", "class_3"] :=
  ⟨by norm_num,
   (class_progression_formula 0 1000000 1000000 3 (fun _ => sampleDraw) (by norm_num)).2.1⟩

/-- C10: the first estimate of every progressive sequence is submitted
exactly at the project's posted date (the 7-21 day draw is multiplied by
the zero-based step index, which is 0 at the first step), carries
sequence number 1, and is the class_5 estimate. -/
theorem first_estimate_at_posted_date (p bmin bmax : ℚ) (n : ℕ) (draws : ℕ → ProgDraw)
    (e : Estimate)
    (h : (generate_progressive_estimates p bmin bmax n draws)[0]? = some e) :
    e.submitted_date = p ∧ e.estimate_sequence = 1 ∧ e.aace_class = "class_5" := by
  obtain ⟨hi, -⟩ := List.getElem?_eq_some.mp h
  rw [gen_prog_length] at hi
  rw [gen_prog_getElem _ _ _ _ _ 0 hi] at h
  cases Option.some.inj h
  refine ⟨?_, rfl, rfl⟩
  show p + (0 : ℚ) * _ = p
  ring

theorem first_estimate_at_posted_date_witness :
    (mkProgEstimate 0 ((1000000 + 1000000) / 2) 2 0 sampleDraw).submitted_date = 0 :=
  (first_estimate_at_posted_date 0 1000000 1000000 2 (fun _ => sampleDraw) _
    (gen_prog_getElem 0 1000000 1000000 2 (fun _ => sampleDraw) 0 (by norm_num))).1

/-- C5: every progressive sequence of length n (2 to 5) has exactly one
estimate with status accepted, namely the one whose estimate_sequence is
the greatest (n, the last generated); every other estimate in the
sequence has status superseded. -/
theorem terminal_acceptance (p bmin bmax : ℚ) (n : ℕ) (draws : ℕ → ProgDraw)
    (hn2 : 2 ≤ n) (hn5 : n ≤ 5) :
    (generate_progressive_estimates p bmin bmax n draws).length = n ∧
    (∀ (i : ℕ) (e : Estimate),
        (generate_progressive_estimates p bmin bmax n draws)[i]? = some e →
        e.estimate_sequence = i + 1 ∧
        (e.status = "accepted" ↔ e.estimate_sequence = n) ∧
        (e.status = "superseded" ↔ e.estimate_sequence ≠ n)) ∧
    ((generate_progressive_estimates p bmin bmax n draws).filter
        (fun e => e.status == "accepted")).map Estimate.estimate_sequence = [n] := by
  refine ⟨gen_prog_length p bmin bmax n draws, ?_, ?_⟩
  · intro i e h
    obtain ⟨hi, -⟩ := List.getElem?_eq_some.mp h
    rw [gen_prog_length] at hi
    rw [gen_prog_getElem _ _ _ _ _ i hi] at h
    cases Option.some.inj h
    refine ⟨rfl, ?_, ?_⟩
    · show (if i = n - 1 then "accepted" else "superseded") = "accepted" ↔ i + 1 = n
      by_cases hin : i = n - 1 <;> simp [hin] <;> omega
    · show (if i = n - 1 then "accepted" else "superseded") = "superseded" ↔ i + 1 ≠ n
      by_cases hin : i = n - 1 <;> simp [hin] <;> omega
  · interval_cases n <;>
      simp [generate_progressive_estimates, List.range_succ, mkProgEstimate, List.filter]

theorem terminal_acceptance_witness :
    (2 : ℕ) ≤ 2 ∧
    ((generate_progressive_estimates 0 1000000 1000000 2 (fun _ => sampleDraw)).filter
        (fun e => e.status == "accepted")).map Estimate.estimate_sequence = [2] :=
  ⟨by norm_num,
   (terminal_acceptance 0 1000000 1000000 2 (fun _ => sampleDraw)
     (by norm_num) (by norm_num)).2.2⟩

/-- C3: along every progressive sequence (length at most 5, so each step
advances one AACE class), the stored confidence-interval width
(confidence_interval_high minus confidence_interval_low) at a step is at
most the width at the preceding step, for any nonnegative project
budget. -/
theorem confidence_width_nonincreasing (p bmin bmax : ℚ) (n : ℕ) (draws : ℕ → ProgDraw)
    (hb : 0 ≤ bmin + bmax) (hn : n ≤ 5) (i : ℕ) (e1 e2 : Estimate)
    (h1 : (generate_progressive_estimates p bmin bmax n draws)[i]? = some e1)
    (h2 : (generate_progressive_estimates p bmin bmax n draws)[i + 1]? = some e2) :
    ci_width e2 ≤ ci_width e1 := by
  obtain ⟨hi2, -⟩ := List.getElem?_eq_some.mp h2
  rw [gen_prog_length] at hi2
  have hi1 : i < n := by omega
  rw [gen_prog_getElem _ _ _ _ _ i hi1] at h1
  rw [gen_prog_getElem _ _ _ _ _ (i + 1) hi2] at h2
  cases Option.some.inj h1
  cases Option.some.inj h2
  have hbase : 0 ≤ (bmin + bmax) / 2 := by linarith
  have hi3 : i < 4 := by omega
  unfold ci_width
  rw [mkProg_ci_low, mkProg_ci_high, mkProg_ci_low, mkProg_ci_high]
  interval_cases i
  · rw [step_class_0, step_class_1, lookupClass_c5, lookupClass_c4]
    exact width_step _ hbase (by norm_num) (by norm_num)
  · rw [step_class_1, step_class_2, lookupClass_c4, lookupClass_c3]
    exact width_step _ hbase (by norm_num) (by norm_num)
  · rw [step_class_2, step_class_3, lookupClass_c3, lookupClass_c2]
    exact width_step _ hbase (by norm_num) (by norm_num)
  · rw [step_class_3, step_class_4, lookupClass_c2, lookupClass_c1]
    exact width_step _ hbase (by norm_num) (by norm_num)

theorem confidence_width_nonincreasing_witness :
    (0 : ℚ) ≤ 1000000 + 1000000 ∧
    ci_width (mkProgEstimate 0 ((1000000 + 1000000) / 2) 2 1 sampleDraw) ≤
      ci_width (mkProgEstimate 0 ((1000000 + 1000000) / 2) 2 0 sampleDraw) :=
  ⟨by norm_num,
   confidence_width_nonincreasing 0 1000000 1000000 2 (fun _ => sampleDraw)
     (by norm_num) (by norm_num) 0 _ _
     (gen_prog_getElem 0 1000000 1000000 2 (fun _ => sampleDraw) 0 (by norm_num))
     (gen_prog_getElem 0 1000000 1000000 2 (fun _ => sampleDraw) 1 (by norm_num))⟩


/-- C6: in both generation modes the stored confidence-interval bounds
equal the project base cost times (1 + class confidence_low/100) and
times (1 + class confidence_high/100) rounded to cents -- a function of
the AACE class and base cost only, unchanged under any other draw -- and
the stored point estimate estimated_total_cost always lies inside
[confidence_interval_low, confidence_interval_high]; concretely, for
base cost 1,000,000 the class_5 interval is [500,000, 2,000,000] and the
class_1 interval is [900,000, 1,150,000]. -/
theorem confidence_bounds_fixed_and_contain
    (p p2 q : ℚ) (base bmin bmax : ℚ) (n s : ℕ) (d d2 : ProgDraw) (bd bd2 : BidDraw)
    (hb : 0 ≤ base) (hbb : 0 ≤ bmin + bmax)
    (hv : ValidProgDraw s d) (hvb : ValidBidDraw bd)
    (hcls : bd2.classIndex = bd.classIndex) :
    ((mkProgEstimate p base n s d).confidence_interval_low =
       round2 (base * (1 + (lookupClass (step_class s)).confidence_low / 100)) ∧
     (mkProgEstimate p base n s d).confidence_interval_high =
       round2 (base * (1 + (lookupClass (step_class s)).confidence_high / 100)) ∧
     (mkProgEstimate p2 base n s d2).confidence_interval_low =
       (mkProgEstimate p base n s d).confidence_interval_low ∧
     (mkProgEstimate p2 base n s d2).confidence_interval_high =
       (mkProgEstimate p base n s d).confidence_interval_high) ∧
    ((mkProgEstimate p base n s d).confidence_interval_low ≤
       (mkProgEstimate p base n s d).estimated_total_cost ∧
     (mkProgEstimate p base n s d).estimated_total_cost ≤
       (mkProgEstimate p base n s d).confidence_interval_high) ∧
    ((mkSingleEstimate q bmin bmax bd).confidence_interval_low =
       round2 ((bmin + bmax) / 2 *
         (1 + (lookupClass (bid_class bd.classIndex)).confidence_low / 100)) ∧
     (mkSingleEstimate q bmin bmax bd).confidence_interval_high =
       round2 ((bmin + bmax) / 2 *
         (1 + (lookupClass (bid_class bd.classIndex)).confidence_high / 100)) ∧
     (mkSingleEstimate q bmin bmax bd2).confidence_interval_low =
       (mkSingleEstimate q bmin bmax bd).confidence_interval_low ∧
     (mkSingleEstimate q bmin bmax bd2).confidence_interval_high =
       (mkSingleEstimate q bmin bmax bd).confidence_interval_high ∧
     (mkSingleEstimate q bmin bmax bd).confidence_interval_low ≤
       (mkSingleEstimate q bmin bmax bd).estimated_total_cost ∧
     (mkSingleEstimate q bmin bmax bd).estimated_total_cost ≤
       (mkSingleEstimate q bmin bmax bd).confidence_interval_high) ∧
    ((mkProgEstimate 0 1000000 5 0 sampleDraw).confidence_interval_low = 500000 ∧
     (mkProgEstimate 0 1000000 5 0 sampleDraw).confidence_interval_high = 2000000 ∧
     (mkProgEstimate 0 1000000 5 4 sampleDraw).confidence_interval_low = 900000 ∧
     (mkProgEstimate 0 1000000 5 4 sampleDraw).confidence_interval_high = 1150000) := by
  obtain ⟨hv1, hv2, -⟩ := hv
  obtain ⟨hw1, hw2, -⟩ := hvb
  have hbase2 : 0 ≤ (bmin + bmax) / 2 := by linarith
  refine ⟨⟨rfl, rfl, rfl, rfl⟩, ⟨?_, ?_⟩, ⟨rfl, rfl, ?_, ?_, ?_, ?_⟩, ?_, ?_, ?_, ?_⟩
  · exact round2_mono (by nlinarith)
  · exact round2_mono (by nlinarith)
  · show round2 ((bmin + bmax) / 2 *
        (1 + (lookupClass (bid_class bd2.classIndex)).confidence_low / 100)) = _
    rw [hcls]
    rfl
  · show round2 ((bmin + bmax) / 2 *
        (1 + (lookupClass (bid_class bd2.classIndex)).confidence_high / 100)) = _
    rw [hcls]
    rfl
  · exact round2_mono (by nlinarith)
  · exact round2_mono (by nlinarith)
  · rw [mkProg_ci_low, step_class_0, lookupClass_c5]
    rw [round2_eq_int _ 500000 (by norm_num)]
    norm_num
  · rw [mkProg_ci_high, step_class_0, lookupClass_c5]
    rw [round2_eq_int _ 2000000 (by norm_num)]
    norm_num
  · rw [mkProg_ci_low, step_class_4, lookupClass_c1]
    rw [round2_eq_int _ 900000 (by norm_num)]
    norm_num
  · rw [mkProg_ci_high, step_class_4, lookupClass_c1]
    rw [round2_eq_int _ 1150000 (by norm_num)]
    norm_num



lemma mkProg_contingency (p b : ℚ) (n s : ℕ) (d : ProgDraw) :
    (mkProgEstimate p b n s d).contingency_percent =
      round2 ((lookupClass (step_class s)).typical_contingency + d.contJitter) := rfl

lemma mkSingle_contingency (q bmin bmax : ℚ) (bd : BidDraw) :
    (mkSingleEstimate q bmin bmax bd).contingency_percent =
      round2 ((lookupClass (bid_class bd.classIndex)).typical_contingency + bd.contJitter) := rfl

lemma round2_three : round2 (3 : ℚ) = 3 := by
  rw [round2_eq_int 3 3 (by norm_num)]
  norm_num

/-- C9: every sampled financial quantity is strictly positive by
construction, with no clamping anywhere in the generator: the budget
bounds (log-normal base times positive regional multiplier times
0.8/1.2), the point estimate base*(1+variance) in both modes (variance
at least -0.5 since the widest class band starts at -50 percent), each
cost-breakdown component (a positive fraction of the positive point
estimate), and the contingency percentage (class nominal at least 5
minus a jitter of at most 2); the stored, cents-rounded columns are
correspondingly nonnegative, and the stored contingency_percent is at
least 3. -/
theorem financial_quantities_positive
    (b base p q bmin bmax : ℚ) (st : String) (n s : ℕ) (d : ProgDraw) (bd : BidDraw)
    (hb : 0 < b) (hbase : 0 < base) (hbmm : 0 < bmin + bmax)
    (hv : ValidProgDraw s d) (hvb : ValidBidDraw bd) :
    (0 < b * get_regional_multiplier st * 0.8 ∧
     0 < b * get_regional_multiplier st * 1.2) ∧
    (0 < base * (1 + d.variance) ∧
     0 < base * (1 + d.variance) * d.fLabor ∧
     0 < base * (1 + d.variance) * d.fMaterials ∧
     0 < base * (1 + d.variance) * d.fEquipment ∧
     0 < base * (1 + d.variance) * d.fSubcontractor ∧
     0 < base * (1 + d.variance) * d.fOverhead ∧
     0 < base * (1 + d.variance) * d.fProfit ∧
     0 < (lookupClass (step_class s)).typical_contingency + d.contJitter ∧
     3 ≤ (mkProgEstimate p base n s d).contingency_percent) ∧
    (0 < (bmin + bmax) / 2 * (1 + bd.variance) ∧
     0 < (lookupClass (bid_class bd.classIndex)).typical_contingency + bd.contJitter ∧
     3 ≤ (mkSingleEstimate q bmin bmax bd).contingency_percent) ∧
    (0 ≤ (mkProgEstimate p base n s d).estimated_total_cost ∧
     0 ≤ (mkProgEstimate p base n s d).labor_cost ∧
     0 ≤ (mkProgEstimate p base n s d).materials_cost ∧
     0 ≤ (mkProgEstimate p base n s d).equipment_cost ∧
     0 ≤ (mkProgEstimate p base n s d).subcontractor_cost ∧
     0 ≤ (mkProgEstimate p base n s d).overhead_cost ∧
     0 ≤ (mkProgEstimate p base n s d).profit_margin ∧
     0 ≤ (project_budget b st).1 ∧
     0 ≤ (project_budget b st).2) := by
  have hm : 0 < get_regional_multiplier st := get_regional_multiplier_pos st
  have hbud1 : 0 < b * get_regional_multiplier st * 0.8 := by positivity
  have hbud2 : 0 < b * get_regional_multiplier st * 1.2 := by positivity
  obtain ⟨sb1, sb2, sb3, sb4⟩ := step_info_bounds s
  obtain ⟨bb1, bb2, bb3, bb4⟩ := bid_info_bounds bd.classIndex
  obtain ⟨hv1, hv2, -, -, -, -, hcj1, hcj2, hf1, -, hf2, -, hf3, -, hf4, -, hf5, -, hf6, -, -, -⟩ := hv
  obtain ⟨hw1, hw2, -, -, hwc1, hwc2, -⟩ := hvb
  have h1v : 0 < 1 + d.variance := by
    have : -(1 / 2) ≤ d.variance := by
      have : (lookupClass (step_class s)).confidence_low / 100 ≥ -(1 / 2) := by linarith
      linarith
    linarith
  have h1w : 0 < 1 + bd.variance := by
    have : -(1 / 2) ≤ bd.variance := by
      have : (lookupClass (bid_class bd.classIndex)).confidence_low / 100 ≥ -(1 / 2) := by
        linarith
      linarith
    linarith
  have hcost : 0 < base * (1 + d.variance) := mul_pos hbase h1v
  have hbase2 : 0 < (bmin + bmax) / 2 := by linarith
  have pfl : 0 < d.fLabor := by linarith
  have pfm : 0 < d.fMaterials := by linarith
  have pfe : 0 < d.fEquipment := by linarith
  have pfs : 0 < d.fSubcontractor := by linarith
  have pfo : 0 < d.fOverhead := by linarith
  have pfp : 0 < d.fProfit := by linarith
  refine ⟨⟨hbud1, hbud2⟩,
    ⟨hcost, mul_pos hcost pfl, mul_pos hcost pfm, mul_pos hcost pfe, mul_pos hcost pfs,
     mul_pos hcost pfo, mul_pos hcost pfp, by linarith, ?_⟩,
    ⟨mul_pos hbase2 h1w, by linarith, ?_⟩,
    ⟨round2_nonneg (le_of_lt hcost),
     round2_nonneg (le_of_lt (mul_pos hcost pfl)),
     round2_nonneg (le_of_lt (mul_pos hcost pfm)),
     round2_nonneg (le_of_lt (mul_pos hcost pfe)),
     round2_nonneg (le_of_lt (mul_pos hcost pfs)),
     round2_nonneg (le_of_lt (mul_pos hcost pfo)),
     round2_nonneg (le_of_lt (mul_pos hcost pfp)),
     round2_nonneg (le_of_lt hbud1),
     round2_nonneg (le_of_lt hbud2)⟩⟩
  · rw [mkProg_contingency]
    calc (3 : ℚ) = round2 3 := round2_three.symm
    _ ≤ _ := round2_mono (by linarith)
  · rw [mkSingle_contingency]
    calc (3 : ℚ) = round2 3 := round2_three.symm
    _ ≤ _ := round2_mono (by linarith)


theorem confidence_bounds_fixed_and_contain_witness :
    ValidProgDraw 0 sampleDraw ∧ ValidBidDraw sampleBid ∧
    ((mkProgEstimate 0 1000000 5 0 sampleDraw).confidence_interval_low = 500000 ∧
     (mkProgEstimate 0 1000000 5 0 sampleDraw).confidence_interval_high = 2000000 ∧
     (mkProgEstimate 0 1000000 5 4 sampleDraw).confidence_interval_low = 900000 ∧
     (mkProgEstimate 0 1000000 5 4 sampleDraw).confidence_interval_high = 1150000) :=
  ⟨sampleDraw_valid 0, sampleBid_valid,
   (confidence_bounds_fixed_and_contain 0 0 0 1000000 1000000 1000000 5 0 sampleDraw
     sampleDraw sampleBid sampleBid (by norm_num) (by norm_num) (sampleDraw_valid 0)
     sampleBid_valid rfl).2.2.2⟩

theorem financial_quantities_positive_witness :
    ((0 : ℚ) < 1000000) ∧ ValidProgDraw 0 sampleDraw ∧ ValidBidDraw sampleBid ∧
    0 < (1000000 : ℚ) * get_regional_multiplier "NY" * 0.8 :=
  ⟨by norm_num, sampleDraw_valid 0, sampleBid_valid,
   (financial_quantities_positive 1000000 1000000 0 0 1000000 1000000 "NY" 2 0 sampleDraw
     sampleBid (by norm_num) (by norm_num) (by norm_num) (sampleDraw_valid 0)
     sampleBid_valid).1.1⟩


/-- Draws exhibiting the date regression: the step-1 draw of
random.randint(7, 21) is 21 and the step-2 draw is 7, both legal values
of the distribution. -/
def c2draws : ℕ → ProgDraw :=
  fun seq => if seq = 1 then ⟨0, 21, 0, 0, 0.3, 0.25, 0.05, 0.10, 0.08, 0.05, 30⟩
             else ⟨0, 7, 0, 0, 0.3, 0.25, 0.05, 0.10, 0.08, 0.05, 30⟩

lemma c2draws_valid (s : ℕ) : ValidProgDraw s (c2draws s) := by
  obtain ⟨h1, h2, h3, -⟩ := step_info_bounds s
  have hvar : (lookupClass (step_class s)).confidence_low / 100 ≤ 0 := by linarith
  have hvar2 : (0 : ℚ) ≤ (lookupClass (step_class s)).confidence_high / 100 := by linarith
  unfold ValidProgDraw c2draws
  split <;>
    exact ⟨hvar, hvar2, by norm_num, by norm_num, by norm_num, by norm_num, by norm_num,
      by norm_num, by norm_num, by norm_num, by norm_num, by norm_num, by norm_num,
      by norm_num, by norm_num, by norm_num, by norm_num, by norm_num, by norm_num,
      by norm_num, by norm_num, by norm_num⟩

/-- C2: counter-evidence from the code.  The loop computes days_offset =
seq * random.randint(7, 21) (line 750), drawing a fresh step each
iteration and multiplying it by the index instead of accumulating.  With
the legal draws 21 at step 1 and 7 at step 2, a three-estimate sequence
on a project posted at day 0 is submitted at days [0, 21, 14]: the third
estimate predates the second, so submitted_date is not strictly
increasing and the gap between consecutive estimates (-7 days) is not in
[7, 21]. -/
theorem submitted_dates_not_increasing :
    (∀ s, ValidProgDraw s (c2draws s)) ∧
    (generate_progressive_estimates 0 1000000 1000000 3 c2draws).map
      Estimate.submitted_date = [0, 21, 14] ∧
    ¬ List.Chain' (· < ·)
      ((generate_progressive_estimates 0 1000000 1000000 3 c2draws).map
        Estimate.submitted_date) := by
  have hmap : (generate_progressive_estimates 0 1000000 1000000 3 c2draws).map
      Estimate.submitted_date = [0, 21, 14] := by
    show [(0 : ℚ) + (0 : ℕ) * ((c2draws 0).dateStep : ℚ),
          (0 : ℚ) + (1 : ℕ) * ((c2draws 1).dateStep : ℚ),
          (0 : ℚ) + (2 : ℕ) * ((c2draws 2).dateStep : ℚ)] = [0, 21, 14]
    norm_num [c2draws]
  refine ⟨c2draws_valid, hmap, ?_⟩
  rw [hmap]
  simp only [List.chain'_cons, List.chain'_singleton, and_true]
  intro h
  have := h.2
  norm_num at this



/-- Entropy sources of one execution of main (lines 976-1016).  Module
initialization (lines 22-24) runs Faker.seed(42) and np.random.seed(42),
pinning the Faker and numpy streams.  Three further sources exist and
are never seeded: the stdlib random module stream (used by every
random.choice / random.randint / random.uniform / random.sample /
random.random call throughout the generators), the operating-system
entropy behind every uuid.uuid4() primary key, and the wall clock behind
the datetime.now() timestamps stored in business and estimator rows. -/
structure RunEnv where
  fakerSeed : ℕ
  npSeed : ℕ
  stdlibDraws : ℕ → ℕ
  osEntropy : ℕ → ℕ
  clock : ℚ

/-- Effect of the module-level seeding (lines 22-24): only the Faker and
numpy streams are pinned to 42; the other sources pass through. -/
def seedEnv (e : RunEnv) : RunEnv :=
  { e with fakerSeed := 42, npSeed := 42 }

lemma major_cities_pos : 0 < MAJOR_CITIES.length := by decide

/-- Model of random.choice(MAJOR_CITIES): index the list by a stdlib
draw below its length. -/
def choice_city (draw : ℕ) : String × String :=
  MAJOR_CITIES.get ⟨draw % MAJOR_CITIES.length, Nat.mod_lt _ major_cities_pos⟩

/-- First value the run writes that depends on the stdlib stream: the
city and state of business 0, drawn by random.choice(MAJOR_CITIES) at
line 448 from the post-seeding environment. -/
def first_business_location (e : RunEnv) : String × String :=
  choice_city ((seedEnv e).stdlibDraws 0)

/-- C1: counter-evidence from the code.  Two runs whose seeded streams
(Faker, numpy) are identical can disagree on the very first business row
whenever their unseeded stdlib random states differ, so the generated
dataset is not a function of the seed alone. -/
theorem pipeline_not_seed_deterministic :
    ∃ e1 e2 : RunEnv,
      (seedEnv e1).fakerSeed = (seedEnv e2).fakerSeed ∧
      (seedEnv e1).npSeed = (seedEnv e2).npSeed ∧
      first_business_location e1 ≠ first_business_location e2 := by
  refine ⟨⟨0, 0, fun _ => 0, fun _ => 0, 0⟩, ⟨0, 0, fun _ => 1, fun _ => 0, 0⟩,
    rfl, rfl, ?_⟩
  show ("New York", "NY") ≠ ("Los Angeles", "CA")
  decide


end CCheckDash
